import Mathlib

/-!
Shallow embedding of the security core of the devopsAi repository:
the command validator (src/security/command_validator.py), the audit
logger (src/security/audit_logger.py), the system executor
(src/utils/system_executor.py) and the agent's request-processing
pipeline (src/agent/sysadmin_agent.py).  Python strings are modelled
as Lean String values; regular-expression operations are modelled by
executable functions that implement exactly the patterns appearing in
the source.  Case folding is ASCII (the policy entries and commands in
scope are ASCII).
-/

namespace DevopsAi

/-- The six ASCII characters matched by Python's whitespace class
(str.strip, str.split and the regex class backslash-s). -/
def wsChar (c : Char) : Bool :=
  c == ' ' || c == '\t' || c == '\n' || c == '\r' || c == '\x0b' || c == '\x0c'

/-- Drop leading whitespace characters. -/
def dropLeadingWs : List Char → List Char
  | [] => []
  | c :: cs => if wsChar c then dropLeadingWs cs else c :: cs

/-- Python str.strip: drop leading and trailing whitespace. -/
def stripWs (cs : List Char) : List Char :=
  (dropLeadingWs (dropLeadingWs cs).reverse).reverse

/-- Comment scanner: when the flag is set the scanner is inside a
comment and discards characters until the end of the line. -/
def stripCommentsAux : List Char → Bool → List Char
  | [], _ => []
  | c :: cs, true =>
    if c == '\n' then '\n' :: stripCommentsAux cs false
    else stripCommentsAux cs true
  | c :: cs, false =>
    if c == '#' then stripCommentsAux cs true
    else c :: stripCommentsAux cs false

/-- Model of re.sub applied to the comment pattern (hash up to end of
line) with the MULTILINE flag: on each line, everything from the first
hash character to the end of the line is removed; newline characters
are kept. -/
def stripComments (cs : List Char) : List Char :=
  stripCommentsAux cs false

/-- Whitespace collapser: when the flag is set the scanner is inside a
whitespace run whose single replacement space was already emitted. -/
def collapseWsAux : List Char → Bool → List Char
  | [], _ => []
  | c :: cs, inRun =>
    if wsChar c then
      if inRun then collapseWsAux cs true
      else ' ' :: collapseWsAux cs true
    else c :: collapseWsAux cs false

/-- Model of re.sub collapsing every whitespace run to a single space. -/
def collapseWs (cs : List Char) : List Char :=
  collapseWsAux cs false

/-- CommandValidator._clean_command: strip, then remove comments, then
collapse whitespace runs, in exactly the source's order. -/
def clean_command (command : String) : String :=
  String.mk (collapseWs (stripComments (stripWs command.data)))

/-- ASCII case folding of a string to a character list (Python lower()). -/
def lowerData (s : String) : List Char :=
  s.data.map Char.toLower

/-- The Python substring test (the `in` operator on str). -/
def isSubstring (p : List Char) (s : List Char) : Bool :=
  if p.isPrefixOf s then true
  else
    match s with
    | [] => false
    | _ :: rest => isSubstring p rest

/-- One token of a dangerous-pattern regex: a literal piece, or a
one-or-more whitespace gap. -/
inductive Tok where
  | lit (s : List Char)
  | ws
deriving DecidableEq

/-- One-or-more whitespace characters followed by the continuation:
the backtracking semantics of a whitespace-plus gap in a regex. -/
def wsThen (k : List Char → Bool) : List Char → Bool
  | [] => false
  | c :: cs => wsChar c && (k cs || wsThen k cs)

/-- Match a token sequence against a prefix of the character list,
with backtracking for the one-or-more whitespace gaps (the semantics
of the regexes in CommandValidator._is_forbidden, which consist only
of literals and whitespace-plus gaps). -/
def matchToks : List Tok → List Char → Bool
  | [], _ => true
  | Tok.lit p :: ts, cs => p.isPrefixOf cs && matchToks ts (cs.drop p.length)
  | Tok.ws :: ts, cs => wsThen (matchToks ts) cs

/-- Model of re.search for a dangerous pattern: the token sequence
matches at some position of the character list. -/
def searchToks (ts : List Tok) : List Char → Bool
  | [] => matchToks ts []
  | c :: cs => matchToks ts (c :: cs) || searchToks ts cs

/-- Literal token from a string. -/
def tlit (s : String) : Tok :=
  Tok.lit s.data

/-- The built-in dangerous-pattern regexes of
CommandValidator._is_forbidden, in source order. -/
def dangerousPatterns : List (List Tok) :=
  [ [tlit "rm", Tok.ws, tlit "-rf", Tok.ws, tlit "/"],
    [tlit "dd", Tok.ws, tlit "if=/dev/zero"],
    [tlit "mkfs", Tok.ws],
    [tlit "fdisk", Tok.ws],
    [tlit "chmod", Tok.ws, tlit "777"],
    [tlit "chown", Tok.ws, tlit "root"],
    [tlit "passwd", Tok.ws],
    [tlit "su", Tok.ws],
    [tlit "sudo", Tok.ws, tlit "su"] ]

/-- Some dangerous-pattern regex matches somewhere in the (already
case-folded) character list. -/
def matchesDangerousPattern (cs : List Char) : Bool :=
  dangerousPatterns.any (fun ts => searchToks ts cs)

/-- The state of CommandValidator: the policy lists loaded by
initialize() and the initialized flag.  Filesystem paths are modelled
by their string form (the source wraps each entry in pathlib.Path and
converts back with str when matching). -/
structure CommandValidator where
  allowedCommands : List String
  forbiddenCommands : List String
  allowedPaths : List String
  forbiddenPaths : List String
  initialized : Bool
deriving DecidableEq

/-- First half of CommandValidator._is_forbidden: some forbidden-list
entry occurs in the command as a case-insensitive substring. -/
def forbidden_entry_match (v : CommandValidator) (command : String) : Bool :=
  v.forbiddenCommands.any (fun f => isSubstring (lowerData f) (lowerData command))

/-- CommandValidator._is_forbidden: forbidden-list substring match or
dangerous-pattern regex match, both on the case-folded command. -/
def is_forbidden (v : CommandValidator) (command : String) : Bool :=
  forbidden_entry_match v command || matchesDangerousPattern (lowerData command)

/-- The base command: first whitespace-delimited word (empty when the
command has no word), as computed by command.split() in the source. -/
def firstWord (cs : List Char) : List Char :=
  (cs.dropWhile wsChar).takeWhile (fun c => !wsChar c)

/-- The service-manager prefixes of CommandValidator._is_explicitly_allowed. -/
def systemctlPatterns : List String :=
  ["systemctl status", "systemctl start", "systemctl stop",
   "systemctl restart", "systemctl enable", "systemctl disable"]

/-- CommandValidator._is_explicitly_allowed: exact allow-list match,
base-command allow-list match, or a systemctl subcommand prefix. -/
def is_explicitly_allowed (v : CommandValidator) (command : String) : Bool :=
  let base := String.mk (firstWord command.data)
  v.allowedCommands.contains command
  || v.allowedCommands.contains base
  || (base == "systemctl"
      && systemctlPatterns.any (fun p => p.data.isPrefixOf command.data))

/-- CommandValidator._accesses_forbidden_paths: some forbidden path
occurs in the command as a case-insensitive substring. -/
def accesses_forbidden_paths (v : CommandValidator) (command : String) : Bool :=
  v.forbiddenPaths.any (fun p => isSubstring (lowerData p) (lowerData command))

/-- An anchored safe pattern of the exact shape: the literal followed
by optional whitespace up to the end of the string. -/
def safeExact (s : String) (cs : List Char) : Bool :=
  s.data.isPrefixOf cs && (cs.drop s.data.length).all wsChar

/-- An anchored safe pattern of the argument shape: the literal
followed by at least one whitespace character. -/
def safeWithArg (s : String) (cs : List Char) : Bool :=
  s.data.isPrefixOf cs
  && (match cs.drop s.data.length with
      | [] => false
      | c :: _ => wsChar c)

/-- CommandValidator._is_safe_pattern: the built-in anchored
diagnostic shapes, in source order. -/
def is_safe_pattern (command : String) : Bool :=
  let cs := command.data
  safeExact "df" cs || safeWithArg "du" cs || safeExact "free" cs
  || safeExact "top" cs || safeWithArg "ps" cs || safeWithArg "ls" cs
  || safeWithArg "cat" cs || safeWithArg "tail" cs || safeWithArg "head" cs
  || safeWithArg "grep" cs || safeWithArg "find" cs || safeWithArg "ping" cs
  || safeExact "uptime" cs || safeExact "who" cs || safeExact "w" cs
  || safeExact "uname" cs || safeExact "hostname" cs || safeExact "date" cs

/-- CommandValidator.is_allowed, with the source's exact check order:
uninitialized guard, clean, forbidden, explicit allow, forbidden
paths, safe patterns, default deny.  The source wraps the body in a
broad exception handler returning False; every operation involved is
total here, so the handler has no observable effect in the model. -/
def is_allowed (v : CommandValidator) (command : String) : Bool :=
  if !v.initialized then false
  else if is_forbidden v (clean_command command) then false
  else if is_explicitly_allowed v (clean_command command) then true
  else if accesses_forbidden_paths v (clean_command command) then false
  else if is_safe_pattern (clean_command command) then true
  else false

/-- The denial reasons of the specification's decision data model,
plus the uninitialized guard branch of the source. -/
inductive DenyReason where
  | notInitialized
  | forbidden
  | dangerousPattern
  | forbiddenPath
  | notWhitelisted
deriving DecidableEq

/-- An authorization decision. -/
inductive Decision where
  | allowed
  | denied (reason : DenyReason)
deriving DecidableEq

/-- Reason-level refinement of is_allowed: the same branch structure,
with each deny branch labelled by the reason that the source logs at
that branch (forbidden-list and dangerous-pattern matches are the two
halves of _is_forbidden, distinguished here in their source order). -/
def authorize (v : CommandValidator) (command : String) : Decision :=
  if !v.initialized then Decision.denied DenyReason.notInitialized
  else if forbidden_entry_match v (clean_command command) then
    Decision.denied DenyReason.forbidden
  else if matchesDangerousPattern (lowerData (clean_command command)) then
    Decision.denied DenyReason.dangerousPattern
  else if is_explicitly_allowed v (clean_command command) then
    Decision.allowed
  else if accesses_forbidden_paths v (clean_command command) then
    Decision.denied DenyReason.forbiddenPath
  else if is_safe_pattern (clean_command command) then
    Decision.allowed
  else
    Decision.denied DenyReason.notWhitelisted

/-! ## System executor (src/utils/system_executor.py) -/

/-- The whitespace characters of Python's shlex lexer. -/
def shlexWs (c : Char) : Bool :=
  c == ' ' || c == '\t' || c == '\r' || c == '\n'

/-- Lexer mode for the shlex model: outside quotes, inside single
quotes, inside double quotes. -/
inductive ShMode where
  | normal
  | single
  | double
deriving DecidableEq

/-- Model of shlex.split in POSIX mode (comments off): whitespace
splitting with single-quote, double-quote and backslash handling.
cur is the token under construction (none when no token is open, so
that adjacent quotes merge into one token and empty quoted tokens are
kept); acc is the finished tokens.  Unclosed quotes and a trailing
escape character produce the errors shlex raises. -/
def shlexGo : List Char → ShMode → Option (List Char) → List String →
    Except String (List String)
  | [], ShMode.normal, none, acc => Except.ok acc
  | [], ShMode.normal, some cur, acc => Except.ok (acc ++ [String.mk cur])
  | [], ShMode.single, _, _ => Except.error "No closing quotation"
  | [], ShMode.double, _, _ => Except.error "No closing quotation"
  | c :: rest, ShMode.single, cur, acc =>
    if c == '\'' then shlexGo rest ShMode.normal (some (cur.getD [])) acc
    else shlexGo rest ShMode.single (some (cur.getD [] ++ [c])) acc
  | c :: rest, ShMode.double, cur, acc =>
    if c == '"' then shlexGo rest ShMode.normal (some (cur.getD [])) acc
    else if c == '\\' then
      match rest with
      | [] => Except.error "No escaped character"
      | d :: rest2 =>
        let add := if d == '\\' || d == '"' then [d] else ['\\', d]
        shlexGo rest2 ShMode.double (some (cur.getD [] ++ add)) acc
    else shlexGo rest ShMode.double (some (cur.getD [] ++ [c])) acc
  | c :: rest, ShMode.normal, cur, acc =>
    if shlexWs c then
      match cur with
      | none => shlexGo rest ShMode.normal none acc
      | some t => shlexGo rest ShMode.normal none (acc ++ [String.mk t])
    else if c == '\'' then shlexGo rest ShMode.single (some (cur.getD [])) acc
    else if c == '"' then shlexGo rest ShMode.double (some (cur.getD [])) acc
    else if c == '\\' then
      match rest with
      | [] => Except.error "No escaped character"
      | d :: rest2 => shlexGo rest2 ShMode.normal (some (cur.getD [] ++ [d])) acc
    else shlexGo rest ShMode.normal (some (cur.getD [] ++ [c])) acc

/-- shlex.split on a command string. -/
def shlexSplit (command : String) : Except String (List String) :=
  shlexGo command.data ShMode.normal none []

/-- The SystemExecutor state: the configured limits that the model
needs (maximum execution time in seconds). -/
structure SystemExecutor where
  maxExecutionTime : Nat
deriving DecidableEq

/-- The behaviour of the operating-system process an execution spawns:
it completes within the timeout with an exit code and output streams,
it is still running when the timeout expires, or it cannot be created
at all. -/
inductive ProcBehavior where
  | completes (exitCode : Int) (stdoutText : String) (stderrText : String)
  | runsOver
  | spawnFails (msg : String)
deriving DecidableEq

/-- The observable process-management actions SystemExecutor.execute
performs, in order: spawning the subprocess, killing it, awaiting its
exit (reaping). -/
inductive ExecAction where
  | spawn (args : List String)
  | kill
  | wait
deriving DecidableEq

/-- The exceptions SystemExecutor.execute can raise, as data:
ValueError (empty command, shlex errors), TimeoutError, and spawn
failures such as a missing binary. -/
inductive ExecError where
  | valueError (msg : String)
  | timedOut (seconds : Nat)
  | spawnFailed (msg : String)
deriving DecidableEq

/-- Equality of exception-or-value results is decidable componentwise. -/
instance {ε α : Type} [DecidableEq ε] [DecidableEq α] : DecidableEq (Except ε α) :=
  fun x y =>
    match x, y with
    | Except.ok a, Except.ok b =>
      if h : a = b then isTrue (by rw [h]) else isFalse (by simp [h])
    | Except.error a, Except.error b =>
      if h : a = b then isTrue (by rw [h]) else isFalse (by simp [h])
    | Except.ok _, Except.error _ => isFalse (by simp)
    | Except.error _, Except.ok _ => isFalse (by simp)

/-- The result of a modelled execution: the returned rendering or the
raised error, together with the trace of process actions taken. -/
structure ExecOutcome where
  result : Except ExecError String
  actions : List ExecAction
deriving DecidableEq

/-- The source computes the effective timeout as the passed value or
the configured default; Python's or-expression also replaces a passed
zero by the default. -/
def effective_timeout (ex : SystemExecutor) (timeout : Option Nat) : Nat :=
  match timeout with
  | none => ex.maxExecutionTime
  | some n => if n == 0 then ex.maxExecutionTime else n

/-- The textual rendering SystemExecutor.execute returns after the
process completes: stdout (with an appended STDERR section when
present) on exit code zero, otherwise a failure banner with the exit
code and the preserved streams. -/
def renderOutcome (exitCode : Int) (stdoutText stderrText : String) : String :=
  if exitCode == 0 then
    stdoutText ++ (if stderrText != "" then "\n[STDERR]\n" ++ stderrText else "")
  else
    "Command failed with exit code " ++ toString exitCode ++ "\n"
    ++ (if stderrText != "" then "[STDERR]\n" ++ stderrText else "")
    ++ (if stdoutText != "" then "[STDOUT]\n" ++ stdoutText else "")

/-- SystemExecutor.execute: tokenize with shlex (a tokenizer error
propagates), reject an empty token list, spawn the process, and either
return the rendered output (process completed, any exit code) or, when
the timeout expires first, kill the process, await it, and raise
TimeoutError.  The process behaviour is an explicit parameter since it
is decided by the operating system. -/
def execute (ex : SystemExecutor) (behavior : ProcBehavior) (command : String)
    (timeout : Option Nat) : ExecOutcome :=
  match shlexSplit command with
  | Except.error e => { result := Except.error (ExecError.valueError e), actions := [] }
  | Except.ok [] => { result := Except.error (ExecError.valueError "Empty command"), actions := [] }
  | Except.ok parts =>
    match behavior with
    | ProcBehavior.spawnFails msg =>
      { result := Except.error (ExecError.spawnFailed msg)
        actions := [] }
    | ProcBehavior.completes code out err =>
      { result := Except.ok (renderOutcome code out err)
        actions := [ExecAction.spawn parts] }
    | ProcBehavior.runsOver =>
      { result := Except.error (ExecError.timedOut (effective_timeout ex timeout))
        actions := [ExecAction.spawn parts, ExecAction.kill, ExecAction.wait] }

/-- The dangerous substrings of SystemExecutor.check_command_safety,
in source order. -/
def executorDangerousPatterns : List String :=
  ["rm -rf /", "dd if=/dev/zero", "mkfs", "fdisk", "chmod 777",
   "chown root", "passwd", "su ", "sudo su"]

/-- SystemExecutor.check_command_safety: reject blank commands, then
dangerous substrings in the case-folded command, then path-traversal
sequences, else report the command as safe. -/
def check_command_safety (command : String) : Bool × String :=
  if command.data.all wsChar then (false, "Empty command")
  else
    match executorDangerousPatterns.find?
        (fun p => isSubstring p.data (lowerData command)) with
    | some p => (false, "Dangerous pattern detected: " ++ p)
    | none =>
      if isSubstring "../".data command.data
          || isSubstring "..\\".data command.data then
        (false, "Path traversal detected")
      else (true, "Command appears safe")

/-! ## Audit logger (src/security/audit_logger.py) and the agent's
request pipeline (src/agent/sysadmin_agent.py) -/

/-- The AuditLogger state: the global enable flag, the per-kind
toggles, and the initialized flag. -/
structure AuditLogger where
  enabled : Bool
  logCommands : Bool
  logResponses : Bool
  logErrors : Bool
  initialized : Bool
deriving DecidableEq

/-- One structured audit record, by event kind with its payload. -/
inductive AuditEvent where
  | request (text : String)
  | response (text : String)
  | command (text : String) (success : Bool)
  | error (text : String)
  | securityEvent (eventType : String)
deriving DecidableEq

/-- AuditLogger.log_request: emits one request event when enabled and
initialized, else nothing.  Internal write failures are swallowed by
the source and never raise. -/
def log_request (al : AuditLogger) (r : String) : List AuditEvent :=
  if al.enabled && al.initialized then [AuditEvent.request r] else []

/-- AuditLogger.log_response: also gated by the response toggle. -/
def log_response (al : AuditLogger) (r : String) : List AuditEvent :=
  if al.enabled && al.initialized && al.logResponses then [AuditEvent.response r] else []

/-- AuditLogger.log_command: also gated by the command toggle. -/
def log_command (al : AuditLogger) (c : String) (success : Bool) : List AuditEvent :=
  if al.enabled && al.initialized && al.logCommands then [AuditEvent.command c success] else []

/-- AuditLogger.log_error: also gated by the error toggle. -/
def log_error (al : AuditLogger) (e : String) : List AuditEvent :=
  if al.enabled && al.initialized && al.logErrors then [AuditEvent.error e] else []

/-- AuditLogger.log_security_event: gated only by the global flags. -/
def log_security_event (al : AuditLogger) (t : String) : List AuditEvent :=
  if al.enabled && al.initialized then [AuditEvent.securityEvent t] else []

/-- What one call to SysAdminAgent.process_request produced: the reply
returned to the user, the audit events recorded (in order), and the
commands handed to the executor. -/
structure GateOutcome where
  reply : String
  trace : List AuditEvent
  executed : List String
deriving DecidableEq

/-- SysAdminAgent._execute_commands: each validated command runs in
turn; a per-command exception is caught and rendered as an error line,
and the results are joined by blank lines. -/
def renderExecResults (commands : List String)
    (execOutcome : String → Except String String) : String :=
  String.intercalate "\n\n" (commands.map (fun c =>
    match execOutcome c with
    | Except.ok r => "✅ " ++ c ++ "\n" ++ r
    | Except.error e => "❌ " ++ c ++ "\nError: " ++ e))

/-- SysAdminAgent.process_request: log the request; generate a
response with the language model (its outcome, and the command
extraction from its text, are explicit parameters since they are
decided outside the gate); append a warning per blocked command;
execute the validated commands and append their results; log the final
response.  Any exception (the language-model call being the fallible
step - the validator and the audit calls swallow their own errors and
the executor's errors are caught per command) is converted to an error
reply and logged as an error event. -/
def process_request (v : CommandValidator) (al : AuditLogger)
    (userInput : String) (llmResult : Except String String)
    (extractCommands : String → List String)
    (execOutcome : String → Except String String) : GateOutcome :=
  let reqEvents := log_request al userInput
  match llmResult with
  | Except.error e =>
    { reply := "❌ Error processing request: " ++ e
      trace := reqEvents ++ log_error al ("Error processing request: " ++ e)
      executed := [] }
  | Except.ok response =>
    let commands := extractCommands response
    let validated := commands.filter (fun c => is_allowed v c)
    let blocked := commands.filter (fun c => !is_allowed v c)
    let withWarnings := response ++ String.join (blocked.map
      (fun c => "\n\n⚠️ Command blocked for security: " ++ c))
    let finalReply :=
      if validated.isEmpty then withWarnings
      else withWarnings ++ "\n\n📋 Execution Results:\n"
        ++ renderExecResults validated execOutcome
    { reply := finalReply
      trace := reqEvents ++ log_response al finalReply
      executed := validated }

/-- Number of command-kind events in a trace. -/
def countCommandEvents (trace : List AuditEvent) : Nat :=
  (trace.filter (fun e => match e with
    | AuditEvent.command _ _ => true
    | _ => false)).length

/-- Number of security-kind events in a trace. -/
def countSecurityEvents (trace : List AuditEvent) : Nat :=
  (trace.filter (fun e => match e with
    | AuditEvent.securityEvent _ => true
    | _ => false)).length

/-! ## Concrete policies and states used by the theorems.  The first
is the configuration of the repository's own test suite
(tests/test_agent.py); the others isolate single policy entries. -/

/-- The validator configuration of the repository's test suite,
initialized. -/
def testValidator : CommandValidator :=
  { allowedCommands := ["df", "ps", "uptime", "systemctl status"]
    forbiddenCommands := ["rm -rf /", "sudo su", "passwd"]
    allowedPaths := ["/tmp", "/home"]
    forbiddenPaths := ["/root", "/etc/shadow"]
    initialized := true }

/-- A policy that allow-lists cat and forbids the path /etc/shadow. -/
def catValidator : CommandValidator :=
  { allowedCommands := ["cat"]
    forbiddenCommands := []
    allowedPaths := []
    forbiddenPaths := ["/etc/shadow"]
    initialized := true }

/-- A policy with only the forbidden path /etc/shadow and no allow
entries. -/
def shadowPathValidator : CommandValidator :=
  { allowedCommands := []
    forbiddenCommands := []
    allowedPaths := []
    forbiddenPaths := ["/etc/shadow"]
    initialized := true }

/-- A policy that allow-lists only systemctl and forbids the test
suite's entries. -/
def systemctlValidator : CommandValidator :=
  { allowedCommands := ["systemctl"]
    forbiddenCommands := ["rm -rf /", "sudo su"]
    allowedPaths := []
    forbiddenPaths := []
    initialized := true }

/-- An initialized validator with empty policy lists. -/
def emptyValidator : CommandValidator :=
  { allowedCommands := []
    forbiddenCommands := []
    allowedPaths := []
    forbiddenPaths := []
    initialized := true }

/-- A validator that was never initialized, with a nonempty allow
list. -/
def uninitializedValidator : CommandValidator :=
  { allowedCommands := ["df", "ps", "uptime"]
    forbiddenCommands := ["rm -rf /"]
    allowedPaths := []
    forbiddenPaths := []
    initialized := false }

/-- An audit logger with everything enabled, initialized. -/
def testLogger : AuditLogger :=
  { enabled := true
    logCommands := true
    logResponses := true
    logErrors := true
    initialized := true }

/-! ## Shared helper lemmas -/

/-- Command-event counting distributes over trace concatenation. -/
theorem countCommandEvents_append (a b : List AuditEvent) :
    countCommandEvents (a ++ b) = countCommandEvents a + countCommandEvents b := by
  simp [countCommandEvents, List.filter_append]

/-- Security-event counting distributes over trace concatenation. -/
theorem countSecurityEvents_append (a b : List AuditEvent) :
    countSecurityEvents (a ++ b) = countSecurityEvents a + countSecurityEvents b := by
  simp [countSecurityEvents, List.filter_append]

/-- A request log entry is never a command event. -/
theorem countCommandEvents_log_request (al : AuditLogger) (r : String) :
    countCommandEvents (log_request al r) = 0 := by
  unfold log_request
  split <;> rfl

/-- A response log entry is never a command event. -/
theorem countCommandEvents_log_response (al : AuditLogger) (r : String) :
    countCommandEvents (log_response al r) = 0 := by
  unfold log_response
  split <;> rfl

/-- An error log entry is never a command event. -/
theorem countCommandEvents_log_error (al : AuditLogger) (e : String) :
    countCommandEvents (log_error al e) = 0 := by
  unfold log_error
  split <;> rfl

/-- A request log entry is never a security event. -/
theorem countSecurityEvents_log_request (al : AuditLogger) (r : String) :
    countSecurityEvents (log_request al r) = 0 := by
  unfold log_request
  split <;> rfl

/-- A response log entry is never a security event. -/
theorem countSecurityEvents_log_response (al : AuditLogger) (r : String) :
    countSecurityEvents (log_response al r) = 0 := by
  unfold log_response
  split <;> rfl

/-- An error log entry is never a security event. -/
theorem countSecurityEvents_log_error (al : AuditLogger) (e : String) :
    countSecurityEvents (log_error al e) = 0 := by
  unfold log_error
  split <;> rfl

/-! ## Claim C1 -/

/-- Claim C1 is false on the code: with cat allow-listed and
/etc/shadow a forbidden path, the command cat /etc/shadow is Allowed,
not Denied(ForbiddenPath) - the explicit-allow check returns before
the path-restriction check ever runs, even though the command contains
the forbidden path and the base command is allow-listed. -/
theorem c1_counterexample :
    authorize catValidator "cat /etc/shadow" = Decision.allowed ∧
    is_allowed catValidator "cat /etc/shadow" = true ∧
    accesses_forbidden_paths catValidator (clean_command "cat /etc/shadow") = true ∧
    is_explicitly_allowed catValidator (clean_command "cat /etc/shadow") = true := by
  decide

/-- Claim C1 amended: the path-restriction check runs after the
explicit-allow check but can only block commands that are NOT
explicitly allowed (it overrides just the subsequent safe-pattern
check): whenever a command matches no forbidden entry or dangerous
pattern, is not explicitly allowed, and contains a forbidden path as a
case-insensitive substring, authorize returns Denied(ForbiddenPath). -/
theorem c1_theorem : ∀ (v : CommandValidator) (c : String),
    v.initialized = true →
    forbidden_entry_match v (clean_command c) = false →
    matchesDangerousPattern (lowerData (clean_command c)) = false →
    is_explicitly_allowed v (clean_command c) = false →
    accesses_forbidden_paths v (clean_command c) = true →
    authorize v c = Decision.denied DenyReason.forbiddenPath ∧
    is_allowed v c = false := by
  intro v c h1 h2 h3 h4 h5
  constructor
  · simp [authorize, h1, h2, h3, h4, h5]
  · simp [is_allowed, is_forbidden, h1, h2, h3, h4, h5]

/-- Witness for the amended C1: cat /etc/shadow under a policy that
does not allow-list cat is denied through the path check, although the
built-in safe pattern for cat would otherwise have allowed it. -/
theorem c1_theorem_witness :
    (authorize shadowPathValidator "cat /etc/shadow"
        = Decision.denied DenyReason.forbiddenPath ∧
      is_allowed shadowPathValidator "cat /etc/shadow" = false) ∧
    is_safe_pattern (clean_command "cat /etc/shadow") = true :=
  ⟨c1_theorem shadowPathValidator "cat /etc/shadow"
      (by decide) (by decide) (by decide) (by decide) (by decide),
    by decide⟩

/-! ## Claim C2 -/

/-- Claim C2: deny overrides allow.  If the normalized command
contains a forbidden-list entry as a case-insensitive substring or
matches a dangerous-pattern regex on the case-folded text, is_allowed
returns false and the decision is Denied(Forbidden) or
Denied(DangerousPattern), whatever the allow list says. -/
theorem c2_theorem : ∀ (v : CommandValidator) (c : String),
    v.initialized = true →
    is_forbidden v (clean_command c) = true →
    is_allowed v c = false ∧
    (authorize v c = Decision.denied DenyReason.forbidden ∨
      authorize v c = Decision.denied DenyReason.dangerousPattern) := by
  intro v c h1 h2
  have h2' : forbidden_entry_match v (clean_command c) = true ∨
      matchesDangerousPattern (lowerData (clean_command c)) = true := by
    simpa [is_forbidden] using h2
  constructor
  · simp [is_allowed, h1, h2]
  · by_cases hf : forbidden_entry_match v (clean_command c) = true
    · left
      simp [authorize, h1, hf]
    · right
      have hd : matchesDangerousPattern (lowerData (clean_command c)) = true := by
        rcases h2' with h | h
        · exact absurd h hf
        · exact h
      simp [authorize, h1, hf, hd]

/-- Witness for C2: the command systemctl start sshd; rm -rf / is
explicitly allowed by base command and by the systemctl start prefix,
yet it is denied because the forbidden entry and the dangerous pattern
match. -/
theorem c2_theorem_witness :
    is_explicitly_allowed systemctlValidator
      (clean_command "systemctl start sshd; rm -rf /") = true ∧
    is_allowed systemctlValidator "systemctl start sshd; rm -rf /" = false ∧
    (authorize systemctlValidator "systemctl start sshd; rm -rf /"
        = Decision.denied DenyReason.forbidden ∨
      authorize systemctlValidator "systemctl start sshd; rm -rf /"
        = Decision.denied DenyReason.dangerousPattern) :=
  ⟨by decide,
    (c2_theorem systemctlValidator "systemctl start sshd; rm -rf /"
      (by decide) (by decide)).1,
    (c2_theorem systemctlValidator "systemctl start sshd; rm -rf /"
      (by decide) (by decide)).2⟩

/-! ## Claim C3 -/

/-- Claim C3 is false on the code: a request whose response yields one
command that is validated and executed successfully produces zero
audit events of kind Command, not exactly one -
SysAdminAgent.process_request never calls AuditLogger.log_command. -/
theorem c3_counterexample :
    countCommandEvents (process_request testValidator testLogger "check disk"
      (Except.ok "I will run df -h") (fun _ => ["df -h"])
      (fun _ => Except.ok "Filesystem ok")).trace = 0 ∧
    (process_request testValidator testLogger "check disk"
      (Except.ok "I will run df -h") (fun _ => ["df -h"])
      (fun _ => Except.ok "Filesystem ok")).executed = ["df -h"] ∧
    countCommandEvents (process_request testValidator testLogger "check disk"
      (Except.ok "I will run df -h") (fun _ => ["df -h"])
      (fun _ => Except.ok "Filesystem ok")).trace ≠ 1 := by
  decide

/-- Claim C3 amended: no Command audit event is ever recorded by the
request pipeline - for every request, whatever the validator, logger
state, language-model outcome, extracted commands and execution
outcomes, the recorded trace contains zero events of kind Command (the
pipeline records only Request, Response and Error events). -/
theorem c3_theorem : ∀ (v : CommandValidator) (al : AuditLogger)
    (userInput : String) (llmResult : Except String String)
    (extractCommands : String → List String)
    (execOutcome : String → Except String String),
    countCommandEvents
      (process_request v al userInput llmResult extractCommands execOutcome).trace = 0 := by
  intro v al userInput llmResult extractCommands execOutcome
  cases llmResult with
  | error e =>
    simp [process_request, countCommandEvents_append,
      countCommandEvents_log_request, countCommandEvents_log_error]
  | ok response =>
    simp [process_request, countCommandEvents_append,
      countCommandEvents_log_request, countCommandEvents_log_response]

/-! ## Claim C4 -/

/-- Claim C4 is false on the code in its audit half: the denied
command rm -rf / is never executed (that half holds), but zero audit
events of kind SecurityEvent are recorded, not exactly one -
AuditLogger.log_security_event is never called by the pipeline. -/
theorem c4_counterexample :
    is_allowed testValidator "rm -rf /" = false ∧
    (process_request testValidator testLogger "hi" (Except.ok "resp")
      (fun _ => ["rm -rf /"]) (fun _ => Except.ok "ok")).executed = [] ∧
    countSecurityEvents (process_request testValidator testLogger "hi"
      (Except.ok "resp") (fun _ => ["rm -rf /"])
      (fun _ => Except.ok "ok")).trace = 0 ∧
    countSecurityEvents (process_request testValidator testLogger "hi"
      (Except.ok "resp") (fun _ => ["rm -rf /"])
      (fun _ => Except.ok "ok")).trace ≠ 1 := by
  decide

/-- Claim C4 amended: a command the validator denies is never handed
to the executor (it is only reported as blocked in the reply text),
and the pipeline records zero SecurityEvent audit events - for denied
commands no security audit record is written. -/
theorem c4_theorem : ∀ (v : CommandValidator) (al : AuditLogger)
    (userInput : String) (llmResult : Except String String)
    (extractCommands : String → List String)
    (execOutcome : String → Except String String),
    countSecurityEvents
      (process_request v al userInput llmResult extractCommands execOutcome).trace = 0 ∧
    (∀ cmd : String, is_allowed v cmd = false →
      cmd ∉ (process_request v al userInput llmResult extractCommands execOutcome).executed) := by
  intro v al userInput llmResult extractCommands execOutcome
  constructor
  · cases llmResult with
    | error e =>
      simp [process_request, countSecurityEvents_append,
        countSecurityEvents_log_request, countSecurityEvents_log_error]
    | ok response =>
      simp [process_request, countSecurityEvents_append,
        countSecurityEvents_log_request, countSecurityEvents_log_response]
  · intro cmd hcmd
    cases llmResult with
    | error e => simp [process_request]
    | ok response => simp [process_request, List.mem_filter, hcmd]

/-- Witness for the amended C4: the denied command rm -rf / is not
among the executed commands and the trace holds no security event. -/
theorem c4_theorem_witness :
    countSecurityEvents (process_request testValidator testLogger "hi"
      (Except.ok "resp") (fun _ => ["rm -rf /"])
      (fun _ => Except.error "boom")).trace = 0 ∧
    "rm -rf /" ∉ (process_request testValidator testLogger "hi"
      (Except.ok "resp") (fun _ => ["rm -rf /"])
      (fun _ => Except.error "boom")).executed :=
  ⟨(c4_theorem testValidator testLogger "hi" (Except.ok "resp")
      (fun _ => ["rm -rf /"]) (fun _ => Except.error "boom")).1,
    (c4_theorem testValidator testLogger "hi" (Except.ok "resp")
      (fun _ => ["rm -rf /"]) (fun _ => Except.error "boom")).2
      "rm -rf /" (by decide)⟩

/-! ## Claim C5 -/

/-- Claim C5 is false on the code: execute spawns a process for
rm -rf / - a command matching the engine's own dangerous-pattern list,
as check_command_safety confirms - because execute never invokes
check_command_safety or any other pattern re-check. -/
theorem c5_counterexample :
    (execute ⟨300⟩ (ProcBehavior.completes 0 "" "") "rm -rf /" none).actions
      = [ExecAction.spawn ["rm", "-rf", "/"]] ∧
    (check_command_safety "rm -rf /").1 = false := by
  decide

/-- Claim C5 amended: the dangerous-pattern and path-traversal
re-check exists only as the separate method check_command_safety,
which correctly flags every command containing one of the dangerous
substrings; execute itself performs no such re-check and spawns a
process for every command whose tokenization yields a nonempty
argument list, whatever its content. -/
theorem c5_theorem :
    (∀ (ex : SystemExecutor) (code : Int) (out err command : String)
        (timeout : Option Nat) (parts : List String),
      shlexSplit command = Except.ok parts → parts ≠ [] →
      (execute ex (ProcBehavior.completes code out err) command timeout).actions
        = [ExecAction.spawn parts]) ∧
    (∀ command : String,
      executorDangerousPatterns.any
        (fun p => isSubstring p.data (lowerData command)) = true →
      (check_command_safety command).1 = false) := by
  constructor
  · intro ex code out err command timeout parts h1 h2
    cases parts with
    | nil => exact absurd rfl h2
    | cons p ps => simp [execute, h1]
  · intro command h
    by_cases hws : command.data.all wsChar = true
    · simp [check_command_safety, hws]
    · have hsome : (executorDangerousPatterns.find?
          (fun p => isSubstring p.data (lowerData command))).isSome := by
        rw [List.find?_isSome]
        exact List.any_eq_true.mp h
      cases hfind : executorDangerousPatterns.find?
          (fun p => isSubstring p.data (lowerData command)) with
      | none => rw [hfind] at hsome; simp at hsome
      | some p => simp [check_command_safety, hws, hfind]

/-- Witness for the amended C5 at the dangerous command rm -rf /. -/
theorem c5_theorem_witness :
    (execute ⟨300⟩ (ProcBehavior.completes 0 "out" "") "rm -rf /" none).actions
      = [ExecAction.spawn ["rm", "-rf", "/"]] ∧
    (check_command_safety "rm -rf /").1 = false :=
  ⟨c5_theorem.1 ⟨300⟩ 0 "out" "" "rm -rf /" none ["rm", "-rf", "/"]
      (by decide) (by decide),
    c5_theorem.2 "rm -rf /" (by decide)⟩

/-! ## Claim C6 -/

/-- Claim C6: the authorizer is total (it is a function in this model,
mirroring the source's broad exception handler that converts any
failure to a denial) and fail-closed: an allowance requires a positive
match of the explicit allow list or a safe pattern, and an input that
matches no rule at all resolves to Denied(NotWhitelisted) - never to
an allowance. -/
theorem c6_theorem :
    (∀ (v : CommandValidator) (c : String),
      is_allowed v c = true →
      is_explicitly_allowed v (clean_command c) = true ∨
      is_safe_pattern (clean_command c) = true) ∧
    (∀ (v : CommandValidator) (c : String),
      v.initialized = true →
      is_forbidden v (clean_command c) = false →
      is_explicitly_allowed v (clean_command c) = false →
      accesses_forbidden_paths v (clean_command c) = false →
      is_safe_pattern (clean_command c) = false →
      authorize v c = Decision.denied DenyReason.notWhitelisted) := by
  constructor
  · intro v c h
    unfold is_allowed at h
    split_ifs at h with h1 h2 h3 h4 h5 <;> simp_all
  · intro v c h1 h2 h3 h4 h5
    have h2' : forbidden_entry_match v (clean_command c) = false ∧
        matchesDangerousPattern (lowerData (clean_command c)) = false := by
      simpa [is_forbidden] using h2
    simp [authorize, h1, h2'.1, h2'.2, h3, h4, h5]

/-- Witness for C6: df -h is allowed only through a positive rule
(here the allow list), and the empty string resolves to
Denied(NotWhitelisted) under the empty policy. -/
theorem c6_theorem_witness :
    (is_explicitly_allowed testValidator (clean_command "df -h") = true ∨
      is_safe_pattern (clean_command "df -h") = true) ∧
    authorize emptyValidator "" = Decision.denied DenyReason.notWhitelisted :=
  ⟨c6_theorem.1 testValidator "df -h" (by decide),
    c6_theorem.2 emptyValidator "" (by decide) (by decide) (by decide)
      (by decide) (by decide)⟩

/-! ## Claim C7 -/

/-- Claim C7 is false on the code: under a policy with an empty allow
list, df -h is Denied(NotWhitelisted) - the built-in safe pattern for
df is anchored as bare df with optional trailing whitespace and does
not match df -h, so the safe-pattern check alone never allows it, with
or without the comment variant. -/
theorem c7_counterexample :
    authorize emptyValidator "df -h" = Decision.denied DenyReason.notWhitelisted ∧
    is_allowed emptyValidator "df -h" = false ∧
    is_safe_pattern (clean_command "df -h") = false ∧
    is_safe_pattern (clean_command "  df -h  # check disk\n") = false := by
  decide

/-- Claim C7 amended: df -h is Allowed only via the allow list (base
command df, as in the repository's test configuration), and likewise
for its commented variant after normalization; the safe-pattern check
allows bare df without any allow-list entry but does not match
df -h. -/
theorem c7_theorem :
    authorize testValidator "df -h" = Decision.allowed ∧
    authorize testValidator "  df -h  # check disk\n" = Decision.allowed ∧
    is_explicitly_allowed testValidator (clean_command "df -h") = true ∧
    is_safe_pattern (clean_command "df -h") = false ∧
    authorize emptyValidator "df" = Decision.allowed ∧
    is_safe_pattern (clean_command "df") = true := by
  decide

/-! ## Claim C8 -/

/-- Claim C8 names a real property the code fails to have: the
normalization is not idempotent.  On the repository's own test input,
comment stripping leaves a trailing space that the whitespace collapse
keeps (the strip ran first), so a second normalization pass changes
the string; the test suite expects the one-pass result to already be
the trimmed form. -/
theorem c8_theorem :
    clean_command "  df -h  # comment  " = "df -h " ∧
    clean_command "df -h " = "df -h" ∧
    clean_command (clean_command "  df -h  # comment  ")
      ≠ clean_command "  df -h  # comment  " := by
  decide

/-! ## Claim C9 -/

/-- Claim C9: when the process has not completed within the effective
timeout, execute kills the process and then awaits (reaps) it before
returning, and surfaces TimeoutError - an outcome distinct from any
completed run, which returns the rendered output even on a non-zero
exit code. -/
theorem c9_theorem : ∀ (ex : SystemExecutor) (command : String)
    (timeout : Option Nat) (parts : List String),
    shlexSplit command = Except.ok parts → parts ≠ [] →
    (execute ex ProcBehavior.runsOver command timeout).actions
      = [ExecAction.spawn parts, ExecAction.kill, ExecAction.wait] ∧
    (execute ex ProcBehavior.runsOver command timeout).result
      = Except.error (ExecError.timedOut (effective_timeout ex timeout)) ∧
    (∀ (code : Int) (out err : String),
      (execute ex (ProcBehavior.completes code out err) command timeout).result
        = Except.ok (renderOutcome code out err)) := by
  intro ex command timeout parts h1 h2
  cases parts with
  | nil => exact absurd rfl h2
  | cons p ps =>
    refine ⟨?_, ?_, ?_⟩ <;> simp [execute, h1]

/-- Witness for C9: sleep 10 under a one-second timeout is spawned,
killed and reaped, and yields the timeout error, while a completed run
of the same command with exit code 2 yields a rendered result. -/
theorem c9_theorem_witness :
    (execute ⟨300⟩ ProcBehavior.runsOver "sleep 10" (some 1)).actions
      = [ExecAction.spawn ["sleep", "10"], ExecAction.kill, ExecAction.wait] ∧
    (execute ⟨300⟩ ProcBehavior.runsOver "sleep 10" (some 1)).result
      = Except.error (ExecError.timedOut 1) ∧
    (execute ⟨300⟩ (ProcBehavior.completes 2 "boom" "err") "sleep 10" (some 1)).result
      = Except.ok (renderOutcome 2 "boom" "err") :=
  ⟨(c9_theorem ⟨300⟩ "sleep 10" (some 1) ["sleep", "10"] (by decide) (by decide)).1,
    (c9_theorem ⟨300⟩ "sleep 10" (some 1) ["sleep", "10"] (by decide) (by decide)).2.1,
    (c9_theorem ⟨300⟩ "sleep 10" (some 1) ["sleep", "10"] (by decide) (by decide)).2.2
      2 "boom" "err"⟩

/-! ## Claim C10 -/

/-- Claim C10: before initialize() has succeeded, is_allowed denies
every command - even one whose base command is on the configured allow
list - so the validator is fail-closed in the uninitialized state. -/
theorem c10_theorem : ∀ (v : CommandValidator) (c : String),
    v.initialized = false →
    is_allowed v c = false ∧
    authorize v c = Decision.denied DenyReason.notInitialized := by
  intro v c h
  constructor
  · simp [is_allowed, h]
  · simp [authorize, h]

/-- Witness for C10: an uninitialized validator whose allow list
contains df still denies df. -/
theorem c10_theorem_witness :
    (is_allowed uninitializedValidator "df" = false ∧
      authorize uninitializedValidator "df"
        = Decision.denied DenyReason.notInitialized) ∧
    uninitializedValidator.allowedCommands.contains "df" = true :=
  ⟨c10_theorem uninitializedValidator "df" (by decide), by decide⟩

end DevopsAi
